import Mathlib

/-!
Verification of the DataPilot app (`src/app.py`), a Streamlit front-end that
sends a natural-language question about an uploaded table to a hosted model,
executes the returned Python code, and renders a chart, a result, or an error.

Shallow embedding notes.
* Python values that can flow through the two conventional output slots
  (`fig`, `result`) are modelled by `PyVal`, with Python truthiness as
  `truthy` and Python `str()` as `pyStr`.
* The external pieces are oracles: the remote model call is a
  `ModelOutcome` (the reply text, or the exception it raised), and `exec`
  of an arbitrary code string is a function from the seeded variable
  scope to an `ExecOutcome` (the final variable mapping, or the exception
  message).  The prompt built on lines 32-63 of `app.py` is consumed only
  by the external model, so it is absorbed into the oracle.
* Python tuples are heterogeneous-length, and `get_ai_response` returns a
  2-tuple on its error path (line 70) while its caller unpacks three
  values (line 155); returns are therefore modelled as `List PyVal`, and
  the unpacking by the caller as `handle_chat_turn`, which raises a
  `ValueError` when the list does not have exactly three elements.
-/

/-- Python values as they appear in the variable scopes of the app and output
slots.  `vNone` is Python `None`; figures, dataframes and modules are
opaque, tagged by an id or name. -/
inductive PyVal where
  | vNone : PyVal
  | vBool : Bool → PyVal
  | vInt : Int → PyVal
  | vStr : String → PyVal
  | vFigure : Nat → PyVal
  | vDataFrame : Nat → PyVal
  | vModule : String → PyVal
deriving DecidableEq, Repr

/-- Python truthiness (`if fig:` on line 158).  `None`, `False`, `0` and the
empty string are falsy; figures, dataframes and modules are truthy objects. -/
def truthy : PyVal → Bool
  | .vNone => false
  | .vBool b => b
  | .vInt n => n != 0
  | .vStr s => s != ""
  | .vFigure _ => true
  | .vDataFrame _ => true
  | .vModule _ => true

/-- Python `str()` as used when a value is interpolated into an f-string
(line 167). -/
def pyStr : PyVal → String
  | .vNone => "None"
  | .vBool true => "True"
  | .vBool false => "False"
  | .vInt n => toString n
  | .vStr s => s
  | .vFigure n => "Figure(" ++ toString n ++ ")"
  | .vDataFrame n => "DataFrame(" ++ toString n ++ ")"
  | .vModule s => "<module " ++ s ++ ">"

/-- The variable scope handed to `exec` (its `locals` dict). -/
abbrev Env : Type := List (String × PyVal)

/-- The state of a variable scope after `exec` ran: a total lookup, used by
`local_vars.get(name, None)` on lines 85-86. -/
abbrev VarMap : Type := String → Option PyVal

/-- Outcome of `exec` with an empty globals dict and `local_vars` as locals on an arbitrary code string:
either it terminates, leaving the (mutated) variable mapping, or it raises
with an exception message. -/
inductive ExecOutcome where
  | ok : VarMap → ExecOutcome
  | raises : String → ExecOutcome

/-- Outcome of the remote `GEMINI_MODEL.generate_content(prompt)` call on
line 66: the reply text, or the exception message it raised. -/
inductive ModelOutcome where
  | reply : String → ModelOutcome
  | raises : String → ModelOutcome

/-- The `local_vars` dict built on line 79 of `app.py`:
`\x7b"df": df, "pd": pd, "px": px, "st": st\x7d`. -/
def local_vars_init (df : PyVal) : Env :=
  [("df", df), ("pd", .vModule "pandas"), ("px", .vModule "plotly.express"),
   ("st", .vModule "streamlit")]

/-- `execute_code` (lines 73-90): run the code in the seeded scope, read the
conventional slots `fig` and `result` back (defaulting to `None`), and return
the triple; on an exception return `(None, errText, code)`.  `runExec` is the
oracle for what `exec` does to the seeded scope. -/
def execute_code (code : String) (df : PyVal) (runExec : Env → ExecOutcome) :
    List PyVal :=
  match runExec (local_vars_init df) with
  | .ok finalVars =>
      let fig := (finalVars "fig").getD .vNone
      let result := (finalVars "result").getD .vNone
      [fig, result, .vStr code]
  | .raises e => [.vNone, .vStr ("Error executing code: " ++ e), .vStr code]

/-- Python `str.replace`, worker: scan left to right, replacing
non-overlapping occurrences of `pat` by `rep`.  Structural recursion on a
fuel argument (each step consumes at least one character, so fuel equal to
the length of the scanned list suffices) keeps it kernel-evaluable.  Both
patterns used by the app are non-empty, so the empty-pattern guard is never
exercised. -/
def pyReplaceLoop (pat rep : List Char) : Nat → List Char → List Char
  | 0, l => l
  | _ + 1, [] => []
  | fuel + 1, c :: rest =>
      if pat ≠ [] ∧ (c :: rest).take pat.length = pat then
        rep ++ pyReplaceLoop pat rep fuel ((c :: rest).drop pat.length)
      else c :: pyReplaceLoop pat rep fuel rest

/-- Python `s.replace(pat, rep)`. -/
def pyReplace (s pat rep : String) : String :=
  ⟨pyReplaceLoop pat.data rep.data s.data.length s.data⟩

/-- Python `s.strip()`: drop leading and trailing whitespace. -/
def pyStrip (s : String) : String :=
  ⟨((s.data.dropWhile Char.isWhitespace).reverse.dropWhile
      Char.isWhitespace).reverse⟩

/-- The fence-stripping on line 67:
`response.text.strip().replace(three-backticks-python, empty).replace(three-backticks, empty)`. -/
def strip_fences (raw : String) : String :=
  pyReplace (pyReplace (pyStrip raw) "```python" "") "```" ""

/-- Modelled from the spec: removal of markdown code-fence markers and of
nothing else ("strip any markdown code-fence markers from the raw reply
text", "and only fence markers removed") — the same two replacements as the
source but with no whitespace strip.  Used to compare the source behaviour
against the words of the spec. -/
def fence_markers_removed (raw : String) : String :=
  pyReplace (pyReplace raw "```python" "") "```" ""

/-- `get_ai_response` (lines 27-70), with the remote call abstracted as a
`ModelOutcome`.  On a reply, strip fences and execute; on an exception,
return the pair `(None, errText)` — NOT a triple, exactly as line 70 does.
`runExec` gives the `exec` behaviour of any code string. -/
def get_ai_response (df : PyVal) (_userQuery : String) (model : ModelOutcome)
    (runExec : String → Env → ExecOutcome) : List PyVal :=
  match model with
  | .reply text =>
      let codeToExecute := strip_fences text
      execute_code codeToExecute df (runExec codeToExecute)
  | .raises e => [.vNone, .vStr ("An error occurred with the AI model: " ++ e)]

/-- A chat transcript record (`st.session_state.messages` entries): role,
content, and — for assistant records appended by the turn handler — the
generated code (line 174).  User records carry no code key. -/
structure Message where
  role : String
  content : String
  code : Option PyVal
deriving DecidableEq, Repr

/-- What the assistant area of one turn displays: the chart branch
(line 158), the result branch (line 161), or the error branch (line 165). -/
inductive Shown where
  | chartShown : PyVal → Shown
  | resultShown : PyVal → Shown
  | errorShown : String → Shown
deriving DecidableEq, Repr

/-- Branch selection of lines 157-168: `if fig:` (Python truthiness), then
`elif result is not None:`, else the error display interpolating `result`. -/
def render_outcome (fig result : PyVal) : Shown :=
  if truthy fig then .chartShown fig
  else if result ≠ .vNone then .resultShown result
  else .errorShown ("Sorry, I ran into an issue. \n\n" ++ pyStr result)

/-- The fixed `ai_response_content` summary stored for each branch
(lines 160, 164, 168). -/
def outcome_content : Shown → String
  | .chartShown _ => "Here is the visualization you requested."
  | .resultShown _ => "I\x27ve completed the calculation for you."
  | .errorShown _ =>
      "I couldn\x27t complete that request. Please try rephrasing or asking something else."

/-- Result of one chat turn: either the turn rendered (new transcript and
what was shown), or an uncaught exception escaped the handler (the user
record was already appended on line 148 before the raise). -/
inductive TurnResult where
  | rendered : List Message → Shown → TurnResult
  | raised : List Message → String → TurnResult
deriving Repr

/-- The module-level chat handler (lines 146-175): append the user record,
unpack the response of `get_ai_response` into `fig, result, code` (line 155
— a `ValueError` if the response is not a 3-tuple), select the branch, and
append one assistant record carrying the code. -/
def handle_chat_turn (messages : List Message) (prompt : String)
    (response : List PyVal) : TurnResult :=
  let ms1 := messages ++ [{ role := "user", content := prompt, code := none }]
  match response with
  | [fig, result, code] =>
      let shown := render_outcome fig result
      .rendered
        (ms1 ++ [{ role := "assistant", content := outcome_content shown,
                   code := some code }])
        shown
  | _ =>
      .raised ms1
        (if response.length < 3 then
          "ValueError: not enough values to unpack (expected 3, got " ++
            toString response.length ++ ")"
        else "ValueError: too many values to unpack (expected 3)")

/-- Session state touched by the sidebar: `st.session_state.df` (with
`vNone` for Python `None`) and `st.session_state.messages`. -/
structure SessionState where
  df : PyVal
  messages : List Message
deriving Repr

/-- Outcome of one call to `pd.read_csv` / `pd.read_excel`: the parsed
dataframe, or the exception message. -/
inductive LoadOutcome where
  | ok : PyVal → LoadOutcome
  | raises : String → LoadOutcome

/-- Line 111: the parser chosen by the uploaded file name
(`uploaded_file.name.endswith(".csv")`). -/
def chosen_parse (name : String) (readCsv readExcel : LoadOutcome) :
    LoadOutcome :=
  if name.endsWith ".csv" then readCsv else readExcel

/-- The upload handler (lines 109-120): on success set the table, show a
success message, and clear the transcript; on an exception show
`Error reading file: ...` inline, set the table to `None`, and leave the
transcript untouched.  The second component is the inline error text, when
one was shown. -/
def handle_upload (s : SessionState) (name : String)
    (readCsv readExcel : LoadOutcome) : SessionState × Option String :=
  match chosen_parse name readCsv readExcel with
  | .ok df => ({ df := df, messages := [] }, none)
  | .raises e => ({ s with df := .vNone }, some ("Error reading file: " ++ e))

/-- The Load Sample Data handler (lines 123-126): NO try/except — a read
failure propagates out of the handler (`Except.error`), leaving the session
state untouched; a success replaces the table and clears the transcript. -/
def handle_load_sample (_s : SessionState) (readSample : LoadOutcome) :
    Except String SessionState :=
  match readSample with
  | .ok df => .ok { df := df, messages := [] }
  | .raises e => .error e

/-- What one run of the script top-level renders: the startup error block
(lines 21-22), the sidebar uploader (line 107), and the chat input
(line 146, reachable only when a table is loaded, line 129). -/
structure RenderedUI where
  startupErrorShown : Bool
  uploaderShown : Bool
  chatInputShown : Bool
deriving DecidableEq, Repr

/-- The startup gate of the script (lines 17-23) followed by the UI skeleton:
a missing `google_api_key` secret raises `KeyError` (or `FileNotFoundError`
with no secrets file), which is caught, an error is shown, and `st.stop()`
halts the run before any widget below is reached.  With a key present the
uploader always renders and the chat input renders iff a table is loaded. -/
def run_script (apiKeySecret : Option String) (df : PyVal) : RenderedUI :=
  match apiKeySecret with
  | none =>
      { startupErrorShown := true, uploaderShown := false,
        chatInputShown := false }
  | some _ =>
      { startupErrorShown := false, uploaderShown := true,
        chatInputShown := df != .vNone }

/-! ## Claims -/

/-- C1: the claim says that when the remote model call raises,
`get_ai_response` still returns the full triple and no exception propagates
past the Bridge boundary.  The code returns the 2-tuple
`(None, errText)` on line 70, so the 3-way unpacking at line 155 raises a
`ValueError` past the boundary: evaluated here at a concrete failing turn. -/
theorem get_ai_response_model_error_returns_pair :
    get_ai_response (.vDataFrame 0) "q" (.raises "boom") (fun _ _ => .raises "x")
      = [.vNone, .vStr "An error occurred with the AI model: boom"] ∧
    (get_ai_response (.vDataFrame 0) "q" (.raises "boom")
        (fun _ _ => .raises "x")).length = 2 ∧
    handle_chat_turn [] "q"
        (get_ai_response (.vDataFrame 0) "q" (.raises "boom")
          (fun _ _ => .raises "x"))
      = .raised [{ role := "user", content := "q", code := none }]
          "ValueError: not enough values to unpack (expected 3, got 2)" := by
  refine ⟨rfl, rfl, ?_⟩
  rfl

/-- C2 counterexample: the claim says the execution scope is seeded with
exactly the three identifiers `df`, `pd`, `px`.  Line 79 also binds `st`. -/
theorem local_vars_init_binds_st :
    "st" ∈ (local_vars_init (.vDataFrame 0)).map Prod.fst ∧
    (local_vars_init (.vDataFrame 0)).map Prod.fst ≠ ["df", "pd", "px"] := by
  decide

/-- C2 (amended): the scope in which the Executor runs the code is seeded
with exactly the four identifiers `df`, `pd`, `px`, `st`, and the execution
depends on the scope only through that seeding: two `exec` behaviours that
agree on the seeded scope give identical `execute_code` results. -/
theorem execute_code_scope (df : PyVal) :
    (local_vars_init df).map Prod.fst = ["df", "pd", "px", "st"] ∧
    ∀ (code : String) (r1 r2 : Env → ExecOutcome),
      r1 (local_vars_init df) = r2 (local_vars_init df) →
      execute_code code df r1 = execute_code code df r2 := by
  refine ⟨rfl, ?_⟩
  intro code r1 r2 h
  unfold execute_code
  rw [h]

/-- C2 witness: the amended scope theorem applied at a concrete table, code
string and pair of `exec` behaviours. -/
theorem execute_code_scope_witness :
    (local_vars_init (.vDataFrame 0)).map Prod.fst = ["df", "pd", "px", "st"] ∧
    execute_code "x = 1" (.vDataFrame 0) (fun _ => .raises "e")
      = execute_code "x = 1" (.vDataFrame 0) (fun _ => .raises "e") :=
  ⟨(execute_code_scope (.vDataFrame 0)).1,
   (execute_code_scope (.vDataFrame 0)).2 "x = 1"
     (fun _ => .raises "e") (fun _ => .raises "e") rfl⟩

/-- C3 counterexample: the claim says that when the code terminates without
raising and sets neither `fig` nor `result`, the result slot of the returned
triple is overwritten with a non-empty error text.  In the code the triple
keeps the unset value `None` in the result slot; the failure branch is
selected only downstream, in the chat handler, which interpolates `None`
into a fixed message. -/
theorem execute_code_no_slots_keeps_none :
    execute_code "x = 1" (.vDataFrame 0) (fun _ => .ok (fun _ => none))
      = [.vNone, .vNone, .vStr "x = 1"] ∧
    handle_chat_turn [] "q" [.vNone, .vNone, .vStr "x = 1"]
      = .rendered
          [{ role := "user", content := "q", code := none },
           { role := "assistant",
             content := "I couldn\x27t complete that request. Please try rephrasing or asking something else.",
             code := some (.vStr "x = 1") }]
          (.errorShown "Sorry, I ran into an issue. \n\nNone") :=
  ⟨rfl, rfl⟩

/-- C3 (amended): when the executed code terminates without raising and
leaves both conventional output slots unset, the turn is treated as failed
(the error branch renders, interpolating the unset value into a fixed
message), but the result slot of the returned triple remains the unset
value `None`, not an error text; the transcript still records the exact
code text. -/
theorem execute_code_no_slots_failure_branch (df : PyVal) (code : String)
    (run : Env → ExecOutcome) (env : VarMap) (msgs : List Message) (q : String)
    (hrun : run (local_vars_init df) = .ok env)
    (hfig : env "fig" = none) (hres : env "result" = none) :
    execute_code code df run = [.vNone, .vNone, .vStr code] ∧
    handle_chat_turn msgs q (execute_code code df run)
      = .rendered
          (msgs ++ [{ role := "user", content := q, code := none },
                    { role := "assistant",
                      content := "I couldn\x27t complete that request. Please try rephrasing or asking something else.",
                      code := some (.vStr code) }])
          (.errorShown "Sorry, I ran into an issue. \n\nNone") := by
  have h1 : execute_code code df run = [.vNone, .vNone, .vStr code] := by
    unfold execute_code
    rw [hrun]
    simp [hfig, hres]
  refine ⟨h1, ?_⟩
  rw [h1]
  simp [handle_chat_turn, render_outcome, truthy, outcome_content, pyStr]

/-- C3 witness: the amended theorem applied at a concrete table, code and
`exec` behaviour that sets neither slot. -/
theorem execute_code_no_slots_failure_branch_witness :
    execute_code "y = 2" (.vDataFrame 1) (fun _ => .ok (fun _ => none))
      = [.vNone, .vNone, .vStr "y = 2"] ∧
    handle_chat_turn [] "hello" (execute_code "y = 2" (.vDataFrame 1)
        (fun _ => .ok (fun _ => none)))
      = .rendered
          ([] ++ [{ role := "user", content := "hello", code := none },
                  { role := "assistant",
                    content := "I couldn\x27t complete that request. Please try rephrasing or asking something else.",
                    code := some (.vStr "y = 2") }])
          (.errorShown "Sorry, I ran into an issue. \n\nNone") :=
  execute_code_no_slots_failure_branch (.vDataFrame 1) "y = 2"
    (fun _ => .ok (fun _ => none)) (fun _ => none) [] "hello" rfl rfl rfl

/-- C4: `execute_code` always returns a triple whose third component is
exactly the executed code string, in the success branch and in the error
branch alike; consequently the chat handler never hits the unpack failure
on such a response, and the assistant record it stores (whose code field
feeds the per-turn expander) carries exactly that code string. -/
theorem execute_code_total_audit (code : String) (df : PyVal)
    (run : Env → ExecOutcome) (msgs : List Message) (q : String) :
    ∃ fig result,
      execute_code code df run = [fig, result, .vStr code] ∧
      handle_chat_turn msgs q (execute_code code df run)
        = .rendered
            (msgs ++ [{ role := "user", content := q, code := none },
                      { role := "assistant",
                        content := outcome_content (render_outcome fig result),
                        code := some (.vStr code) }])
            (render_outcome fig result) := by
  cases h : run (local_vars_init df) with
  | ok env =>
      refine ⟨(env "fig").getD .vNone, (env "result").getD .vNone, ?_, ?_⟩
      · unfold execute_code
        rw [h]
      · unfold execute_code
        rw [h]
        simp [handle_chat_turn]
  | raises e =>
      refine ⟨.vNone, .vStr ("Error executing code: " ++ e), ?_, ?_⟩
      · unfold execute_code
        rw [h]
      · unfold execute_code
        rw [h]
        simp [handle_chat_turn]

/-- C5 counterexample: the claim says that whenever the chart slot is set
(not `None`) the chart branch renders, never the result branch.  Line 158
tests Python truthiness, so a set-but-falsy chart slot (here the integer 0,
as generated code may assign anything to `fig`) falls through to the result
branch. -/
theorem render_outcome_falsy_fig :
    PyVal.vInt 0 ≠ PyVal.vNone ∧
    render_outcome (.vInt 0) (.vInt 5) = .resultShown (.vInt 5) := by
  decide

/-- C5 (amended): branch selection gives the chart slot priority when it
holds a truthy value: then the chart branch renders, never the result
branch, even if the result slot is also set; when the chart slot is unset
or falsy, a non-`None` result slot renders the result branch, and otherwise
the error branch renders. -/
theorem render_outcome_priority (fig result : PyVal) :
    (truthy fig = true → render_outcome fig result = .chartShown fig) ∧
    (truthy fig = false → result ≠ .vNone →
      render_outcome fig result = .resultShown result) ∧
    (truthy fig = false → result = .vNone →
      render_outcome fig result
        = .errorShown "Sorry, I ran into an issue. \n\nNone") := by
  refine ⟨?_, ?_, ?_⟩
  · intro h
    simp [render_outcome, h]
  · intro h hr
    simp [render_outcome, h, hr]
  · intro h hr
    subst hr
    simp [render_outcome, h, pyStr]

/-- C5 witness: the amended priority theorem applied at concrete slot
values for each of the three branches. -/
theorem render_outcome_priority_witness :
    render_outcome (.vFigure 0) (.vInt 3) = .chartShown (.vFigure 0) ∧
    render_outcome .vNone (.vInt 3) = .resultShown (.vInt 3) ∧
    render_outcome .vNone .vNone
      = .errorShown "Sorry, I ran into an issue. \n\nNone" :=
  ⟨(render_outcome_priority (.vFigure 0) (.vInt 3)).1 rfl,
   (render_outcome_priority .vNone (.vInt 3)).2.1 rfl (by decide),
   (render_outcome_priority .vNone .vNone).2.2 rfl rfl⟩

/-- C6: a successful load — through the upload handler on either parser
branch, or through the Load Sample Data handler — replaces the table with
the parsed dataframe and leaves the transcript empty immediately after,
for every prior session state. -/
theorem load_success_clears_transcript (s : SessionState) (name : String)
    (df : PyVal) :
    (handle_upload s name (.ok df) (.ok df)).1
      = { df := df, messages := [] } ∧
    handle_load_sample s (.ok df) = .ok { df := df, messages := [] } := by
  refine ⟨?_, rfl⟩
  cases h : name.endsWith ".csv" <;> simp [handle_upload, chosen_parse, h]

/-- C7 counterexample: the claim says every failing load attempt, including
the sample-file path, is caught, reports inline and clears the table.  The
Load Sample Data handler (lines 123-126) has no try/except: a read failure
propagates out of the handler and the prior table is not cleared. -/
theorem load_sample_failure_propagates :
    handle_load_sample { df := .vDataFrame 7, messages := [] }
        (.raises "No such file: sample_data.csv")
      = .error "No such file: sample_data.csv" := rfl

/-- C7 (amended): only the upload path catches load failures: a malformed
upload reports `Error reading file: ...` inline, clears the table to `None`
and keeps the session usable with its transcript intact, while a failing
sample-data read propagates uncaught out of its handler, leaving the
session state untouched. -/
theorem load_failure_handling (s : SessionState) (name : String) (e : String) :
    handle_upload s name (.raises e) (.raises e)
      = ({ df := .vNone, messages := s.messages },
         some ("Error reading file: " ++ e)) ∧
    handle_load_sample s (.raises e) = .error e := by
  refine ⟨?_, rfl⟩
  cases h : name.endsWith ".csv" <;> simp [handle_upload, chosen_parse, h]

/-- C8: with the API credential absent the startup gate shows the setup
error and `st.stop()` halts the run: neither the uploader nor the chat
input is reachable, whatever table state the session held. -/
theorem missing_credential_halts (df : PyVal) :
    run_script none df
      = { startupErrorShown := true, uploaderShown := false,
          chatInputShown := false } := rfl

/-- C9 counterexample: the claim says the executed string is the raw reply
with fence markers removed and nothing else removed.  Line 67 also calls
`.strip()`: a reply with no fence markers at all still loses its leading
whitespace. -/
theorem strip_fences_also_trims :
    strip_fences " result = 1" = "result = 1" ∧
    fence_markers_removed " result = 1" = " result = 1" ∧
    (" result = 1" : String) ≠ "result = 1" := by
  refine ⟨by decide, by decide, by decide⟩

/-- C9 (amended): the Bridge hands the Executor exactly the reply text
first stripped of leading and trailing whitespace and then with all fence
markers removed, and on the reply path `get_ai_response` executes exactly
that string. -/
theorem strip_fences_spec (text : String) (df : PyVal) (q : String)
    (run : String → Env → ExecOutcome) :
    strip_fences text = fence_markers_removed (pyStrip text) ∧
    get_ai_response df q (.reply text) run
      = execute_code (strip_fences text) df (run (strip_fences text)) :=
  ⟨rfl, rfl⟩

/-- C10: when an upload fails to parse, the table is set to `None` but the
transcript is left exactly as it was — unlike the successful upload path,
which empties it. -/
theorem upload_failure_preserves_transcript (s : SessionState) (name : String)
    (e : String) (df : PyVal) :
    (handle_upload s name (.raises e) (.raises e)).1.messages = s.messages ∧
    (handle_upload s name (.raises e) (.raises e)).1.df = .vNone ∧
    (handle_upload s name (.ok df) (.ok df)).1.messages = [] := by
  refine ⟨?_, ?_, ?_⟩ <;>
    cases h : name.endsWith ".csv" <;> simp [handle_upload, chosen_parse, h]
